import Mathlib

/-!
# X11 backend of the compositor (`compositor-x11.c`)

A shallow embedding of the event dispatch, the damage-driven idle repaint, the
whole-scene present, output creation and backend creation of
`src/compositor-x11.c`, followed by the properties proved about them.

Conventions of the embedding.

* A pointer to an `x11_output` that is linked into `c->base.output_list` is its
  position in that list; `NULL` is `none`.
* The calls into the host protocol, the rendering API and the compositor core
  that the properties below observe are recorded, in program order, as a list
  of `Effect`s; calls that only set window properties or print a diagnostic
  are not recorded.
* Replies of the host and results of library calls during setup are read from
  a `host` record.
* `int` is a 32-bit two's-complement integer, `size_t` is 64 bits wide.
-/

namespace X11

/-! ## Machine integers -/

/-- Value of an integer after conversion to `int` (32-bit two's complement). -/
def to_int32 (n : Int) : Int := (n + 2147483648) % 4294967296 - 2147483648

/-- Value of an integer after conversion to `int16_t`. -/
def to_int16 (n : Int) : Int := (n + 32768) % 65536 - 32768

/-- Value of an integer after conversion to `uint16_t`. -/
def to_uint16 (n : Int) : Nat := (n % 65536).toNat

/-- Value of an integer after conversion to `uint32_t`. -/
def to_uint32 (n : Int) : Nat := (n % 4294967296).toNat

/-- Value of an integer after conversion to `size_t`. -/
def to_size_t (n : Int) : Nat := (n % 18446744073709551616).toNat

/-! ## Constants of the included headers -/

def XCB_DRI2_ATTACHMENT_BUFFER_FRONT_LEFT : Nat := 0
def XCB_DRI2_ATTACHMENT_BUFFER_BACK_LEFT : Nat := 1
def BTN_LEFT : Int := 272

/-- `ARRAY_SIZE(output->damage)`, of type `size_t`. -/
def DAMAGE_ARRAY_SIZE : Nat := 16

/-! ## Data model -/

/-- `xcb_rectangle_t`: `int16_t x, y; uint16_t width, height`. -/
structure xcb_rectangle_t where
  x : Int
  y : Int
  width : Nat
  height : Nat
deriving DecidableEq, Repr

/-- `struct x11_output`; `damage` is the array `damage[16]`. -/
structure x11_output where
  region : Nat
  window : Nat
  rbo : Nat
  image : Nat
  damage : List xcb_rectangle_t
  damage_count : Int
deriving DecidableEq, Repr

/-- The member `atom` of `struct x11_compositor`. -/
structure x11_atoms where
  wm_protocols : Nat
  wm_normal_hints : Nat
  wm_size_hints : Nat
  wm_delete_window : Nat
  net_wm_name : Nat
  utf8_string : Nat
deriving DecidableEq, Repr

/-- `struct x11_compositor`, with the members of `base` that this file reads or
writes (`output_list`, `focus`, `input_device`, `display`, `context`,
`base.device`, `present`). `xid_last` is the resource-id allocator of `conn`. -/
structure x11_compositor where
  output_list : List x11_output
  focus : Int
  input_device : Bool
  display : Nat
  context : Nat
  device : Option String
  present_set : Bool
  xcb_source : Bool
  xid_last : Nat
  null_cursor : Nat
  dri2_major : Int
  dri2_minor : Int
  drm_fd : Int
  atom : x11_atoms
deriving DecidableEq, Repr

/-- The events the dispatch loop distinguishes, by the value of
`response_type & ~0x80`, with the fields it reads. -/
inductive xcb_generic_event_t where
  | key_press (detail : Nat)
  | key_release (detail : Nat)
  | button_press (detail : Nat)
  | button_release (detail : Nat)
  | motion_notify (event_x event_y : Int)
  | expose (window x y width height : Nat)
  | enter_notify
  | leave_notify
  | client_message (data32_0 : Nat)
  | other (response_type : Nat)
deriving DecidableEq, Repr

/-- Calls made to the outside, in program order. `add_idle_repaint o` is
`wl_event_loop_add_idle(loop, idle_repaint, output)` for the output at
position `o`. -/
inductive Effect where
  | notify_key (key state : Int)
  | notify_button (button state : Int)
  | notify_motion (x y : Int)
  | add_idle_repaint (output : Nat)
  | schedule_repaint
  | glFlush
  | create_region (region : Nat) (rectangles : List xcb_rectangle_t)
  | destroy_region (region : Nat)
  | copy_region (window region dest src : Nat)
  | copy_region_reply
  | finish_frame (msec : Nat)
  | create_window (window : Nat) (width height : Nat)
  | map_window (window : Nat)
  | create_drawable (window : Nat)
  | get_buffers (window : Nat)
  | create_image (name : Nat) (width height stride : Int)
  | bind_renderbuffer (rbo image : Nat)
  | add_fd
deriving DecidableEq, Repr

/-- Ways in which a run leaves defined behaviour. -/
inductive Fault where
  | null_dereference
  | out_of_bounds
deriving DecidableEq, Repr

/-- Result of running a piece of the program: it returns, it calls `exit`, or
it leaves defined behaviour. -/
inductive Outcome (α : Type) where
  | ok (a : α)
  | exit (status : Int)
  | fault (f : Fault)
deriving DecidableEq, Repr

/-! ## Host connection -/

/-- `xcb_generate_id` of libxcb: hands out the next resource id of the
connection. -/
def xcb_generate_id (c : x11_compositor) : x11_compositor × Nat :=
  ({ c with xid_last := c.xid_last + 1 }, c.xid_last + 1)

/-! ## Presentation -/

/-- `x11_compositor_present`: one copy request per output of the list, each
retired at once, then the frame is reported finished. `tv_sec`, `tv_usec` are
what `gettimeofday` stores. -/
def x11_compositor_present (c : x11_compositor) (tv_sec tv_usec : Int) :
    x11_compositor × List Effect :=
  (c,
   [Effect.glFlush] ++
   c.output_list.flatMap (fun output =>
     [Effect.copy_region output.window output.region
        XCB_DRI2_ATTACHMENT_BUFFER_FRONT_LEFT XCB_DRI2_ATTACHMENT_BUFFER_BACK_LEFT,
      Effect.copy_region_reply]) ++
   [Effect.finish_frame (to_uint32 (tv_sec * 1000 + tv_usec / 1000))])

/-- The body of `idle_repaint` on the output record `output` that its `data`
pointer addresses, with `c` the compositor of that output. The comparison with
`ARRAY_SIZE` is made in `size_t`. Returns the last id handed out by the
connection after the run, the output record after the run and the calls
made. -/
def idle_repaint (c : x11_compositor) (output : x11_output) :
    Nat × x11_output × List Effect :=
  let sel : Nat × Nat × List Effect :=
    if to_size_t output.damage_count ≤ DAMAGE_ARRAY_SIZE then
      let g := xcb_generate_id c
      (g.1.xid_last, g.2,
        [Effect.create_region g.2 (output.damage.take (to_uint32 output.damage_count))])
    else
      (c.xid_last, output.region, [])
  let region := sel.2.1
  let copy := [Effect.copy_region output.window region
      XCB_DRI2_ATTACHMENT_BUFFER_FRONT_LEFT XCB_DRI2_ATTACHMENT_BUFFER_BACK_LEFT]
  let destroy := if region ≠ output.region then [Effect.destroy_region region] else []
  (sel.1, { output with damage_count := 0 },
    sel.2.2 ++ copy ++ destroy ++ [Effect.copy_region_reply])

/-! ## Event dispatch -/

/-- Position of the first output of a list whose window is `window`. -/
def find_output_in : List x11_output → Nat → Option Nat
  | [], _ => none
  | output :: rest, window =>
    if output.window = window then some 0
    else (find_output_in rest window).map (· + 1)

/-- `x11_compositor_find_output`: the first output with that window, or
`NULL`. -/
def x11_compositor_find_output (c : x11_compositor) (window : Nat) : Option Nat :=
  find_output_in c.output_list window

/-- Store through a pointer to the output at position `i`. -/
def store_output (c : x11_compositor) (i : Nat) (output : x11_output) : x11_compositor :=
  { c with output_list := c.output_list.set i output }

/-- The idle task `idle_repaint` as the event loop runs it, with `data` the
pointer to the output at position `i`: the body runs on that output and its
stores go through the pointer into the listed output. -/
def run_idle_repaint (c : x11_compositor) (i : Nat) :
    Outcome (x11_compositor × List Effect) :=
  match c.output_list[i]? with
  | none => .fault .null_dereference
  | some output =>
    let r := idle_repaint c output
    .ok (store_output { c with xid_last := r.1 } i r.2.1, r.2.2)

/-- The rectangle the `XCB_EXPOSE` case stores: `uint16_t` fields of the event
assigned to the fields of an `xcb_rectangle_t`. -/
def expose_rectangle (x y width height : Nat) : xcb_rectangle_t :=
  { x := to_int16 x, y := to_int16 y, width := width, height := height }

/-- The `XCB_EXPOSE` case of the dispatch. The result of the lookup is
dereferenced unchecked; the slot `damage[damage_count]` is addressed before the
increment and written only when the incremented count is at most 16. The
increment is that of a 32-bit `int` and wraps past its largest value; a write
to a slot outside `0 .. 15` is a fault. -/
def handle_expose (c : x11_compositor) (window x y width height : Nat) :
    Outcome (x11_compositor × List Effect) :=
  match x11_compositor_find_output c window with
  | none => .fault .null_dereference
  | some i =>
    match c.output_list[i]? with
    | none => .fault .null_dereference
    | some output =>
      let idle := if output.damage_count = 0 then [Effect.add_idle_repaint i] else []
      let slot := output.damage_count
      let output1 := { output with damage_count := to_int32 (output.damage_count + 1) }
      if output1.damage_count > 16 then
        .ok (store_output c i output1, idle)
      else if 0 ≤ slot ∧ slot < 16 then
        .ok (store_output c i
          { output1 with
            damage := output1.damage.set slot.toNat (expose_rectangle x y width height) },
          idle)
      else
        .fault .out_of_bounds

/-- The `switch` in the body of the loop of `x11_compositor_handle_event`. -/
def dispatch_event (c : x11_compositor) :
    xcb_generic_event_t → Outcome (x11_compositor × List Effect)
  | .key_press detail => .ok (c, [Effect.notify_key ((detail : Int) - 8) 1])
  | .key_release detail => .ok (c, [Effect.notify_key ((detail : Int) - 8) 0])
  | .button_press detail =>
    .ok (c, [Effect.notify_button ((detail : Int) + BTN_LEFT - 1) 1])
  | .button_release detail =>
    .ok (c, [Effect.notify_button ((detail : Int) + BTN_LEFT - 1) 0])
  | .motion_notify event_x event_y => .ok (c, [Effect.notify_motion event_x event_y])
  | .expose window x y width height => handle_expose c window x y width height
  | .enter_notify => .ok ({ c with focus := 1 }, [Effect.schedule_repaint])
  | .leave_notify => .ok ({ c with focus := 0 }, [Effect.schedule_repaint])
  | .client_message data32_0 =>
    if data32_0 = c.atom.wm_delete_window then .exit 1 else .ok (c, [])
  | .other _ => .ok (c, [])

/-- `x11_compositor_handle_event`: drains the events that `xcb_poll_for_event`
returns, in order. -/
def x11_compositor_handle_event (c : x11_compositor) :
    List xcb_generic_event_t → Outcome (x11_compositor × List Effect)
  | [] => .ok (c, [])
  | event :: rest =>
    match dispatch_event c event with
    | .ok r1 =>
      match x11_compositor_handle_event r1.1 rest with
      | .ok r2 => .ok (r2.1, r1.2 ++ r2.2)
      | .exit status => .exit status
      | .fault f => .fault f
    | .exit status => .exit status
    | .fault f => .fault f

/-! ## Setup -/

/-- `xcb_dri2_dri2_buffer_t`, the members read by output creation. -/
structure xcb_dri2_dri2_buffer_t where
  name : Nat
  pitch : Nat
deriving DecidableEq, Repr

/-- `xcb_dri2_get_buffers_reply_t`; `buffers` is what
`xcb_dri2_get_buffers_buffers` returns for it (`none` is `NULL`). -/
structure xcb_dri2_get_buffers_reply_t where
  width : Nat
  height : Nat
  count : Nat
  buffers : Option (List xcb_dri2_dri2_buffer_t)
deriving DecidableEq, Repr

/-- `xcb_dri2_connect_reply_t` with the device name stored behind it. -/
structure xcb_dri2_connect_reply_t where
  driver_name_length : Nat
  device_name_length : Nat
  device_name : String
deriving DecidableEq, Repr

/-- Replies of the host and results of library calls during setup. An absent
reply (`NULL`) is `none`; a handle is 0 when the call returns `NULL`. -/
structure host where
  malloc_compositor : Bool
  connection_has_error : Bool
  intern_atom_reply : String → Option Nat
  xfixes_query_reply : Option Nat
  xfixes_query_error : Bool
  dri2_query_reply : Option (Int × Int)
  dri2_query_error : Bool
  dri2_connect_reply : Option xcb_dri2_connect_reply_t
  strndup_ok : Bool
  open_device : String → Int
  drm_get_magic : Int
  dri2_authenticate_reply : Option Nat
  typed_display_proc : Bool
  typed_display : Nat
  egl_init_ok : Bool
  choose_config_ok : Bool
  config_count : Int
  created_context : Nat
  make_current_ok : Bool
  wlsc_compositor_init : Int
  malloc_output : Bool
  get_buffers_reply : Option xcb_dri2_get_buffers_reply_t
  created_image : Nat
  generated_rbo : Nat
  malloc_input : Bool

/-- `x11_input_create`. -/
def x11_input_create (c : x11_compositor) (h : host) : x11_compositor :=
  if h.malloc_input then { c with input_device := true } else c

/-- `dri2_connect`: returns -1 when the XFixes query fails or the connect reply
is unusable, `EGL_FALSE` (0) when the DRI2 version query fails, 0 on success.
The two name lengths are `uint32_t` and their sum wraps; `strndup` copies at
most `device_name_length` characters of the device name. -/
def dri2_connect (c : x11_compositor) (h : host) : Int × x11_compositor :=
  match h.xfixes_query_reply with
  | none => (-1, c)
  | some major_version =>
    if h.xfixes_query_error ∨ major_version < 2 then (-1, c)
    else
      match h.dri2_query_reply with
      | none => (0, c)
      | some version =>
        if h.dri2_query_error then (0, c)
        else
          let c1 := { c with dri2_major := version.1, dri2_minor := version.2 }
          match h.dri2_connect_reply with
          | none => (-1, c1)
          | some connect =>
            if (connect.driver_name_length + connect.device_name_length) % 4294967296 = 0
            then (-1, c1)
            else if h.strndup_ok then
              (0, { c1 with
                    device := some (connect.device_name.take connect.device_name_length) })
            else (-1, { c1 with device := none })

/-- `dri2_authenticate`. -/
def dri2_authenticate (_c : x11_compositor) (h : host) : Int :=
  if h.drm_get_magic ≠ 0 then -1
  else
    match h.dri2_authenticate_reply with
    | none => -1
    | some authenticated => if authenticated = 0 then -1 else 0

/-- `x11_compositor_init_egl`: -1 at the first step that fails, 0 when all
succeed. `open` on a `NULL` path fails with -1. -/
def x11_compositor_init_egl (c : x11_compositor) (h : host) : Int × x11_compositor :=
  let r := dri2_connect c h
  if r.1 < 0 then (-1, r.2)
  else
    let fd : Int := match r.2.device with
      | none => -1
      | some path => h.open_device path
    let c1 := { r.2 with drm_fd := fd }
    if fd = -1 then (-1, c1)
    else if dri2_authenticate c1 h < 0 then (-1, c1)
    else if ¬ h.typed_display_proc then (-1, c1)
    else
      let c2 := { c1 with display := h.typed_display }
      if c2.display = 0 then (-1, c2)
      else if ¬ h.egl_init_ok then (-1, c2)
      else if ¬ h.choose_config_ok ∨ h.config_count = 0 then (-1, c2)
      else
        let c3 := { c2 with context := h.created_context }
        if c3.context = 0 then (-1, c3)
        else if ¬ h.make_current_ok then (-1, c3)
        else (0, c3)

/-- The array `damage[16]` after `memset(output, 0, sizeof *output)`. -/
def zero_damage : List xcb_rectangle_t :=
  List.replicate 16 { x := 0, y := 0, width := 0, height := 0 }

/-- `x11_compositor_create_output`: returns the status, the compositor and the
calls made. The output is linked at the tail of the output list only on the
path that returns 0. `wlsc_output_init` and the property changes touch nothing
that is modelled here. The window is created with `uint16_t` width and height;
the reply's `uint32_t` width, height and pitch / 4 are stored into the `EGLint`
attribute list. `buffers[0]` of a reply without buffers is a fault. -/
def x11_compositor_create_output (c : x11_compositor) (width height : Int) (h : host) :
    Outcome (Int × x11_compositor × List Effect) :=
  if ¬ h.malloc_output then .ok (-1, c, [])
  else
    let g1 := xcb_generate_id c
    let window := g1.2
    let g2 := xcb_generate_id g1.1
    let region := g2.2
    let c2 := g2.1
    let rectangle : xcb_rectangle_t :=
      { x := 0, y := 0, width := to_uint16 width, height := to_uint16 height }
    let requests := [Effect.create_window window (to_uint16 width) (to_uint16 height),
      Effect.map_window window,
      Effect.create_region region [rectangle], Effect.create_drawable window,
      Effect.get_buffers window]
    match h.get_buffers_reply with
    | none => .ok (-1, c2, requests)
    | some reply =>
      match reply.buffers with
      | none => .ok (-1, c2, requests)
      | some buffers =>
        if reply.count ≠ 1 then .ok (-1, c2, requests)
        else
          match buffers with
          | [] => .fault .out_of_bounds
          | buffer :: _ =>
            let output : x11_output :=
              { region := region, window := window, rbo := h.generated_rbo,
                image := h.created_image, damage := zero_damage, damage_count := 0 }
            .ok (0, { c2 with output_list := c2.output_list ++ [output] },
              requests ++
              [Effect.create_image buffer.name (to_int32 reply.width) (to_int32 reply.height)
                 (to_int32 (buffer.pitch / 4)),
               Effect.bind_renderbuffer output.rbo output.image])

/-- `x11_compositor_get_resources`: every atom reply is dereferenced
unchecked; then the blank cursor is created from a temporary pixmap and
graphics context. -/
def x11_compositor_get_resources (c : x11_compositor) (h : host) : Outcome x11_compositor :=
  match h.intern_atom_reply "WM_PROTOCOLS", h.intern_atom_reply "WM_NORMAL_HINTS",
        h.intern_atom_reply "WM_SIZE_HINTS", h.intern_atom_reply "WM_DELETE_WINDOW",
        h.intern_atom_reply "_NET_WM_NAME", h.intern_atom_reply "UTF8_STRING" with
  | some a1, some a2, some a3, some a4, some a5, some a6 =>
    let pixmap := xcb_generate_id c
    let gc := xcb_generate_id pixmap.1
    let cursor := xcb_generate_id gc.1
    .ok { cursor.1 with
          null_cursor := cursor.2
          atom := { wm_protocols := a1, wm_normal_hints := a2, wm_size_hints := a3,
                    wm_delete_window := a4, net_wm_name := a5, utf8_string := a6 } }
  | _, _, _, _, _, _ => .fault .null_dereference

/-- The compositor after `memset(c, 0, sizeof *c)`. -/
def zero_compositor : x11_compositor :=
  { output_list := [], focus := 0, input_device := false, display := 0, context := 0,
    device := none, present_set := false, xcb_source := false, xid_last := 0,
    null_cursor := 0, dri2_major := 0, dri2_minor := 0, drm_fd := 0,
    atom := { wm_protocols := 0, wm_normal_hints := 0, wm_size_hints := 0,
              wm_delete_window := 0, net_wm_name := 0, utf8_string := 0 } }

/-- `x11_compositor_create`: `none` is the `NULL` return. The results of
`x11_compositor_init_egl` and `x11_compositor_create_output` are not read. -/
def x11_compositor_create (h : host) : Outcome (Option x11_compositor × List Effect) :=
  if ¬ h.malloc_compositor then .ok (none, [])
  else if h.connection_has_error then .ok (none, [])
  else
    match x11_compositor_get_resources zero_compositor h with
    | .fault f => .fault f
    | .exit status => .exit status
    | .ok c1 =>
      let c2 := (x11_compositor_init_egl c1 h).2
      if h.wlsc_compositor_init < 0 then .ok (none, [])
      else
        match x11_compositor_create_output c2 1024 640 h with
        | .fault f => .fault f
        | .exit status => .exit status
        | .ok r =>
          let c3 := x11_input_create r.2.1 h
          .ok (some { c3 with xcb_source := true, present_set := true },
               r.2.2 ++ [Effect.add_fd])

/-! ## Sample states -/

/-- An output with window 7, whole-window region 5 and no damage. -/
def sample_output : x11_output :=
  { region := 5, window := 7, rbo := 1, image := 1, damage := zero_damage, damage_count := 0 }

/-- A compositor with `sample_output` as its only output and close atom 40. -/
def sample_compositor : x11_compositor :=
  { zero_compositor with
    output_list := [sample_output], xid_last := 9,
    atom := { zero_compositor.atom with wm_delete_window := 40 } }

/-- A get-buffers reply for a 1024x640 window with `count` buffers. -/
def sample_reply (count : Nat) : xcb_dri2_get_buffers_reply_t :=
  { width := 1024
    height := 640
    count := count
    buffers := some (List.replicate count { name := 11, pitch := 4096 }) }

/-- A host on which every setup step succeeds and the get-buffers reply
carries `count` as its buffer count. -/
def sample_host (count : Nat) : host :=
  { malloc_compositor := true, connection_has_error := false,
    intern_atom_reply := fun name => some name.length,
    xfixes_query_reply := some 2, xfixes_query_error := false,
    dri2_query_reply := some (1, 2), dri2_query_error := false,
    dri2_connect_reply := some { driver_name_length := 4, device_name_length := 14,
                                 device_name := "/dev/dri/card0" },
    strndup_ok := true, open_device := fun _ => 3, drm_get_magic := 0,
    dri2_authenticate_reply := some 1, typed_display_proc := true, typed_display := 1,
    egl_init_ok := true, choose_config_ok := true, config_count := 1,
    created_context := 1, make_current_ok := true, wlsc_compositor_init := 0,
    malloc_output := true,
    get_buffers_reply := some (sample_reply count),
    created_image := 1, generated_rbo := 1, malloc_input := true }

/-! ## Sequences of exposures -/

/-- An event is an exposure of the window `window`. -/
def is_expose_for (window : Nat) : xcb_generic_event_t → Prop
  | .expose w _ _ _ _ => w = window
  | _ => False

instance (window : Nat) (event : xcb_generic_event_t) :
    Decidable (is_expose_for window event) := by
  cases event <;> unfold is_expose_for <;> infer_instance

/-- The rectangle an exposure event carries, as an `xcb_rectangle_t`. -/
def event_rectangle : xcb_generic_event_t → xcb_rectangle_t
  | .expose _ x y width height => expose_rectangle x y width height
  | _ => { x := 0, y := 0, width := 0, height := 0 }

/-- What one exposure does to an output whose count is in `0 .. INT_MAX - 1`:
the count goes up by one and the rectangle is stored while there is room. -/
def record_damage (output : x11_output) (r : xcb_rectangle_t) : x11_output :=
  { output with
    damage_count := output.damage_count + 1
    damage := if output.damage_count < 16 then output.damage.set output.damage_count.toNat r
              else output.damage }

/-- The output after a sequence of exposures, each recorded by `record_damage`. -/
def record_all (output : x11_output) (events : List xcb_generic_event_t) : x11_output :=
  events.foldl (fun o e => record_damage o (event_rectangle e)) output

/-- The call is a copy-region request. -/
def is_copy_region : Effect → Bool
  | .copy_region _ _ _ _ => true
  | _ => false

/-- A compositor whose only output has three pending damage rectangles. -/
def damaged_compositor : x11_compositor :=
  { sample_compositor with output_list := [{ sample_output with damage_count := 3 }] }

/-- The call imports a buffer as an image (`eglCreateImageKHR`). -/
def is_create_image : Effect → Bool
  | .create_image _ _ _ _ => true
  | _ => false

/-- A host on which the XFixes version query gets no reply and every other
step would succeed. -/
def no_xfixes_host : host :=
  { sample_host 1 with xfixes_query_reply := none }

/-- A run of 2^31 exposures of window 7. -/
def exposure_flood : List xcb_generic_event_t :=
  List.replicate 2147483647 (.expose 7 0 0 1 1) ++ [.expose 7 0 0 1 1]

/-- The window ids of the outputs of the list are pairwise different, as ids
handed out by `xcb_generate_id` are. -/
def windows_distinct (c : x11_compositor) : Prop :=
  (c.output_list.map (fun output => output.window)).Nodup

instance (c : x11_compositor) : Decidable (windows_distinct c) := by
  unfold windows_distinct; infer_instance

/-- The window and region ids of the listed outputs were handed out by the
connection: none is above the last id handed out. -/
def ids_allocated (c : x11_compositor) : Prop :=
  ∀ output ∈ c.output_list, output.window ≤ c.xid_last ∧ output.region ≤ c.xid_last

/-- The numbers `(x, y, width, height)` an exposure event carries. -/
def event_fields : xcb_generic_event_t → xcb_rectangle_t
  | .expose _ x y width height => { x := x, y := y, width := width, height := height }
  | _ => { x := 0, y := 0, width := 0, height := 0 }

/-- The coordinates of an exposure event are in the range of `int16_t`. -/
def coordinates_fit : xcb_generic_event_t → Prop
  | .expose _ x y _ _ => x < 32768 ∧ y < 32768
  | _ => True

instance (event : xcb_generic_event_t) : Decidable (coordinates_fit event) := by
  cases event <;> unfold coordinates_fit <;> infer_instance

/-- A second output, with window 9 and whole-window region 8. -/
def second_output : x11_output :=
  { region := 8, window := 9, rbo := 2, image := 2, damage := zero_damage, damage_count := 0 }

/-- A compositor with two outputs, of windows 7 and 9. -/
def two_output_compositor : x11_compositor :=
  { sample_compositor with output_list := [sample_output, second_output] }

/-- Sample exposures of window 9. -/
def second_exposures : List xcb_generic_event_t :=
  [.expose 9 0 0 10 10, .expose 9 20 30 5 6, .expose 9 1 2 3 4]

/-- Seventeen exposures of window 9. -/
def seventeen_second_exposures : List xcb_generic_event_t :=
  List.replicate 17 (.expose 9 0 0 1 1)

/-- An exposure of window 9 whose x is above the range of `int16_t`. -/
def wide_exposure : xcb_generic_event_t := .expose 9 40000 3 10 10

/-! ## Lemmas on the output list -/

theorem find_output_in_some {l : List x11_output} {window i : Nat}
    (h : find_output_in l window = some i) :
    ∃ output, l[i]? = some output ∧ output.window = window := by
  induction l generalizing i with
  | nil => simp [find_output_in] at h
  | cons o rest ih =>
    unfold find_output_in at h
    by_cases hw : o.window = window
    · simp [hw] at h
      subst h
      exact ⟨o, by simp, hw⟩
    · simp [hw] at h
      obtain ⟨j, hj, rfl⟩ := h
      obtain ⟨output, h1, h2⟩ := ih hj
      exact ⟨output, by simpa using h1, h2⟩

/-- An output of a list with pairwise different windows is the one the lookup
finds for its window. -/
theorem find_output_in_listed {l : List x11_output} {i : Nat} {o : x11_output}
    (h : l[i]? = some o) (hw : (l.map (fun output => output.window)).Nodup) :
    find_output_in l o.window = some i := by
  induction l generalizing i with
  | nil => simp at h
  | cons a rest ih =>
    rw [List.map_cons, List.nodup_cons] at hw
    cases i with
    | zero =>
      simp at h
      subst h
      simp [find_output_in]
    | succ j =>
      simp at h
      have hmem : o.window ∈ rest.map (fun output => output.window) :=
        List.mem_map.mpr ⟨o, List.getElem?_mem h, rfl⟩
      have hne : a.window ≠ o.window := fun heq => hw.1 (heq ▸ hmem)
      simp [find_output_in, hne, ih h hw.2]

/-- In a compositor whose outputs have pairwise different windows, the lookup
of the window of a listed output returns that output. -/
theorem find_output_listed {c : x11_compositor} {i : Nat} {o : x11_output}
    (h : c.output_list[i]? = some o) (hw : windows_distinct c) :
    x11_compositor_find_output c o.window = some i :=
  find_output_in_listed h hw

theorem find_output_in_set {l : List x11_output} {i : Nat} {o o1 : x11_output}
    (h : l[i]? = some o) (hw : o1.window = o.window) (window : Nat) :
    find_output_in (l.set i o1) window = find_output_in l window := by
  induction l generalizing i with
  | nil => simp
  | cons a rest ih =>
    cases i with
    | zero =>
      simp at h
      subst h
      simp [find_output_in, hw]
    | succ j =>
      simp at h
      simp [find_output_in, ih h]

theorem set_same {l : List x11_output} {i : Nat} {o : x11_output}
    (h : l[i]? = some o) : l.set i o = l := by
  induction l generalizing i with
  | nil => simp
  | cons a rest ih =>
    cases i with
    | zero => simp at h; simp [h]
    | succ j => simp at h; simp [ih h]

theorem store_output_same {c : x11_compositor} {i : Nat} {o : x11_output}
    (h : c.output_list[i]? = some o) : store_output c i o = c := by
  unfold store_output
  rw [set_same h]

theorem store_output_get {c : x11_compositor} {i : Nat} {o o1 : x11_output}
    (h : c.output_list[i]? = some o) : (store_output c i o1).output_list[i]? = some o1 := by
  have hi : i < c.output_list.length := by
    rcases List.getElem?_eq_some.mp h with ⟨hi, _⟩
    exact hi
  simp [store_output, List.getElem?_set, hi]

theorem store_output_store {c : x11_compositor} {i : Nat} {o1 o2 : x11_output} :
    store_output (store_output c i o1) i o2 = store_output c i o2 := by
  simp [store_output]

theorem to_int32_id {n : Int} (h0 : -2147483648 ≤ n) (h1 : n ≤ 2147483647) :
    to_int32 n = n := by
  unfold to_int32
  omega

/-- One exposure of a known window, while the count is in `0 .. INT_MAX - 1`. -/
theorem handle_expose_step {c : x11_compositor} {window i : Nat} {o : x11_output}
    (hf : x11_compositor_find_output c window = some i)
    (hg : c.output_list[i]? = some o)
    (h0 : 0 ≤ o.damage_count) (h1 : o.damage_count < 2147483647)
    (x y width height : Nat) :
    handle_expose c window x y width height =
      .ok (store_output c i (record_damage o (expose_rectangle x y width height)),
           if o.damage_count = 0 then [Effect.add_idle_repaint i] else []) := by
  unfold handle_expose
  simp only [hf, hg]
  have hw : to_int32 (o.damage_count + 1) = o.damage_count + 1 :=
    to_int32_id (by omega) (by omega)
  simp only [hw]
  by_cases h16 : o.damage_count + 1 > 16
  · have : ¬ o.damage_count < 16 := by omega
    simp [h16, record_damage, this]
  · have h2 : o.damage_count < 16 := by omega
    simp [h16, record_damage, h2, h0]

theorem dispatch_expose_step {c : x11_compositor} {window i : Nat} {o : x11_output}
    {e : xcb_generic_event_t}
    (hf : x11_compositor_find_output c window = some i)
    (hg : c.output_list[i]? = some o)
    (h0 : 0 ≤ o.damage_count) (h1 : o.damage_count < 2147483647)
    (he : is_expose_for window e) :
    dispatch_event c e =
      .ok (store_output c i (record_damage o (event_rectangle e)),
           if o.damage_count = 0 then [Effect.add_idle_repaint i] else []) := by
  cases e <;> simp only [is_expose_for] at he
  subst he
  simp only [dispatch_event, event_rectangle]
  exact handle_expose_step hf hg h0 h1 _ _ _ _

theorem find_output_store {c : x11_compositor} {i : Nat} {o o1 : x11_output}
    (hg : c.output_list[i]? = some o) (hw : o1.window = o.window) (window : Nat) :
    x11_compositor_find_output (store_output c i o1) window =
      x11_compositor_find_output c window := by
  simp only [x11_compositor_find_output, store_output]
  exact find_output_in_set hg hw window

/-- A run of exposures of one known window, while the count stays within
`int`: the output is updated by `record_all`, and an idle repaint is added
exactly when the run is not empty and the count started at 0. -/
theorem handle_event_exposes (window i : Nat) :
    ∀ (events : List xcb_generic_event_t) (c : x11_compositor) (o : x11_output),
      x11_compositor_find_output c window = some i →
      c.output_list[i]? = some o →
      (∀ e ∈ events, is_expose_for window e) →
      0 ≤ o.damage_count →
      o.damage_count + events.length ≤ 2147483647 →
      x11_compositor_handle_event c events =
        .ok (store_output c i (record_all o events),
             if events ≠ [] ∧ o.damage_count = 0 then [Effect.add_idle_repaint i] else []) := by
  intro events
  induction events with
  | nil =>
    intro c o _ hg _ _ _
    simp [x11_compositor_handle_event, record_all, store_output_same hg]
  | cons e rest ih =>
    intro c o hf hg hall h0 hlen
    have he : is_expose_for window e := hall e (by simp)
    have hrest : ∀ e1 ∈ rest, is_expose_for window e1 := fun e1 h1 => hall e1 (by simp [h1])
    have hlen1 : o.damage_count + (rest.length : Int) + 1 ≤ 2147483647 := by
      simpa [add_assoc] using hlen
    have hstep := dispatch_expose_step hf hg h0 (by omega) he
    have hf1 := (find_output_store hg
      (show (record_damage o (event_rectangle e)).window = o.window from rfl) window).trans hf
    have hg1 : (store_output c i (record_damage o (event_rectangle e))).output_list[i]? =
        some (record_damage o (event_rectangle e)) := store_output_get hg
    have hc1 : (record_damage o (event_rectangle e)).damage_count = o.damage_count + 1 := rfl
    have hrec := ih _ _ hf1 hg1 hrest (by rw [hc1]; omega) (by rw [hc1]; omega)
    have hne : ¬ (o.damage_count + 1 = 0) := by omega
    simp only [x11_compositor_handle_event, hstep, hrec, hc1, hne, and_false, if_false,
      store_output_store, List.append_nil]
    simp [record_all]

theorem record_all_cons (o : x11_output) (e : xcb_generic_event_t)
    (rest : List xcb_generic_event_t) :
    record_all o (e :: rest) = record_all (record_damage o (event_rectangle e)) rest := rfl

theorem record_all_count (events : List xcb_generic_event_t) :
    ∀ o : x11_output, (record_all o events).damage_count = o.damage_count + events.length := by
  induction events with
  | nil => intro o; simp [record_all]
  | cons e rest ih =>
    intro o
    rw [record_all_cons, ih]
    simp [record_damage]
    omega

theorem record_all_region (events : List xcb_generic_event_t) :
    ∀ o : x11_output, (record_all o events).region = o.region ∧
      (record_all o events).window = o.window := by
  induction events with
  | nil => intro o; simp [record_all]
  | cons e rest ih =>
    intro o
    rw [record_all_cons]
    exact ih _

theorem take_set_succ {α : Type} (l : List α) (k : Nat) (r : α) (hk : k < l.length) :
    (l.set k r).take (k + 1) = l.take k ++ [r] := by
  induction l generalizing k with
  | nil => simp at hk
  | cons a rest ih =>
    cases k with
    | zero => simp
    | succ j =>
      have hj : j < rest.length := by simpa using hk
      simp [ih j hj]

/-- Recording one more rectangle keeps the array at 16 entries and keeps its
front equal to the first 16 rectangles received. -/
theorem record_damage_front (o : x11_output) (r : xcb_rectangle_t)
    (rs : List xcb_rectangle_t)
    (hlen : o.damage.length = 16) (hc : o.damage_count = rs.length)
    (ht : o.damage.take (min rs.length 16) = rs.take 16) :
    (record_damage o r).damage.length = 16 ∧
      (record_damage o r).damage_count = (rs ++ [r]).length ∧
      (record_damage o r).damage.take (min (rs ++ [r]).length 16) = (rs ++ [r]).take 16 := by
  refine ⟨?_, ?_, ?_⟩
  · unfold record_damage
    by_cases h : o.damage_count < 16 <;> simp [h, hlen]
  · simp [record_damage, hc]
  · by_cases h : rs.length < 16
    · have h1 : o.damage_count < 16 := by rw [hc]; omega
      have hmin : min rs.length 16 = rs.length := by omega
      have hmin1 : min (rs ++ [r]).length 16 = rs.length + 1 := by simp; omega
      have htk : rs.take 16 = rs := List.take_of_length_le (by omega)
      have htk1 : (rs ++ [r]).take 16 = rs ++ [r] :=
        List.take_of_length_le (by simp; omega)
      rw [hmin, htk] at ht
      have hnat : o.damage_count.toNat = rs.length := by rw [hc]; simp
      simp only [record_damage, h1, if_true, hnat]
      rw [hmin1, htk1, take_set_succ _ _ _ (by rw [hlen]; exact h), ht]
    · have h1 : ¬ o.damage_count < 16 := by rw [hc]; omega
      have hmin : min rs.length 16 = 16 := by omega
      have hmin1 : min (rs ++ [r]).length 16 = 16 := by simp; omega
      have htk1 : (rs ++ [r]).take 16 = rs.take 16 :=
        List.take_append_of_le_length (by omega)
      simp only [record_damage, h1, if_false]
      rw [hmin1, htk1, ← ht, hmin]

theorem record_all_front (events : List xcb_generic_event_t) :
    ∀ (o : x11_output) (rs : List xcb_rectangle_t),
      o.damage.length = 16 → o.damage_count = rs.length →
      o.damage.take (min rs.length 16) = rs.take 16 →
      (record_all o events).damage.take (min (rs ++ events.map event_rectangle).length 16) =
        (rs ++ events.map event_rectangle).take 16 := by
  induction events with
  | nil => intro o rs _ _ ht; simpa [record_all] using ht
  | cons e rest ih =>
    intro o rs hlen hc ht
    obtain ⟨h1, h2, h3⟩ := record_damage_front o (event_rectangle e) rs hlen hc ht
    have := ih _ _ h1 h2 h3
    rw [record_all_cons]
    simpa using this

/-- After at most 16 exposures of an output that had no damage, the front of
the damage array is the list of their rectangles. -/
theorem record_all_take (o : x11_output) (events : List xcb_generic_event_t)
    (hlen : o.damage.length = 16) (hd : o.damage_count = 0) (h16 : events.length ≤ 16) :
    (record_all o events).damage.take events.length = events.map event_rectangle := by
  have h := record_all_front events o [] hlen (by simp [hd]) (by simp)
  have hmin : min (events.map event_rectangle).length 16 = events.length := by simp; omega
  have htk : (events.map event_rectangle).take 16 = events.map event_rectangle :=
    List.take_of_length_le (by simp; omega)
  rw [List.nil_append, hmin, htk] at h
  exact h

theorem handle_event_append_fault (l1 l2 : List xcb_generic_event_t) (f : Fault) :
    ∀ (c c1 : x11_compositor) (t1 : List Effect),
      x11_compositor_handle_event c l1 = .ok (c1, t1) →
      x11_compositor_handle_event c1 l2 = .fault f →
      x11_compositor_handle_event c (l1 ++ l2) = .fault f := by
  induction l1 with
  | nil =>
    intro c c1 t1 h1 h2
    simp only [x11_compositor_handle_event, Outcome.ok.injEq, Prod.mk.injEq] at h1
    rw [h1.1]
    simpa using h2
  | cons e rest ih =>
    intro c c1 t1 h1 h2
    simp only [List.cons_append, x11_compositor_handle_event] at h1 ⊢
    cases hd : dispatch_event c e with
    | exit status => simp [hd] at h1
    | fault g => simp [hd] at h1
    | ok r1 =>
      simp only [hd] at h1 ⊢
      cases hr : x11_compositor_handle_event r1.1 rest with
      | exit status => simp [hr] at h1
      | fault g => simp [hr] at h1
      | ok r2 =>
        simp only [hr, Outcome.ok.injEq, Prod.mk.injEq] at h1
        have hr2 : x11_compositor_handle_event r1.1 rest = .ok (c1, r2.2) := by
          rw [hr, ← h1.1]
        have hfault := ih r1.1 c1 r2.2 hr2 h2
        simp only [List.append_eq] at hfault ⊢
        rw [hfault]

/-- An exposure that arrives when the count is `INT_MAX`: the count wraps to a
negative value, and the slot `damage[INT_MAX]` is written. -/
theorem handle_expose_at_int_max {c : x11_compositor} {window i : Nat} {o : x11_output}
    (hf : x11_compositor_find_output c window = some i)
    (hg : c.output_list[i]? = some o)
    (h : o.damage_count = 2147483647) (x y width height : Nat) :
    handle_expose c window x y width height = .fault .out_of_bounds := by
  unfold handle_expose
  simp only [hf, hg, h]
  have hw : to_int32 (2147483647 + 1) = -2147483648 := by
    unfold to_int32; norm_num
  simp only [hw]
  norm_num

/-- A run of `n + 1` exposures with `n = INT_MAX`, from a count of 0: the
last one faults. -/
theorem handle_event_flood (n : Nat) (hn : n = 2147483647) (c : x11_compositor)
    (window i : Nat) (o : x11_output)
    (hf : x11_compositor_find_output c window = some i)
    (hg : c.output_list[i]? = some o) (hd : o.damage_count = 0)
    (x y width height : Nat) :
    x11_compositor_handle_event c
      (List.replicate n (.expose window x y width height) ++
        [.expose window x y width height]) = .fault .out_of_bounds := by
  have hall : ∀ e ∈ List.replicate n (xcb_generic_event_t.expose window x y width height),
      is_expose_for window e := by
    intro e he
    rw [List.eq_of_mem_replicate he]
    rfl
  have hrun := handle_event_exposes window i _ c o hf hg hall (by omega)
    (by rw [List.length_replicate, hd, hn]; norm_num)
  refine handle_event_append_fault _ _ _ c _ _ hrun ?_
  have hf1 := (find_output_store hg (record_all_region
    (List.replicate n (xcb_generic_event_t.expose window x y width height)) o).2 window).trans hf
  have hg1 := @store_output_get c i o (record_all o
    (List.replicate n (xcb_generic_event_t.expose window x y width height))) hg
  have hc1 : (record_all o
      (List.replicate n (xcb_generic_event_t.expose window x y width height))).damage_count =
      2147483647 := by
    rw [record_all_count, List.length_replicate, hd, hn]; norm_num
  simp only [x11_compositor_handle_event, dispatch_event,
    handle_expose_at_int_max hf1 hg1 hc1]

theorem exposure_flood_length : exposure_flood.length = 2147483648 := by
  unfold exposure_flood
  rw [List.length_append, List.length_replicate]
  rfl

/-- Handling two batches of events in two calls is handling their
concatenation in one call. -/
theorem handle_event_append_ok (l1 l2 : List xcb_generic_event_t) :
    ∀ (c c1 c2 : x11_compositor) (t1 t2 : List Effect),
      x11_compositor_handle_event c l1 = .ok (c1, t1) →
      x11_compositor_handle_event c1 l2 = .ok (c2, t2) →
      x11_compositor_handle_event c (l1 ++ l2) = .ok (c2, t1 ++ t2) := by
  induction l1 with
  | nil =>
    intro c c1 c2 t1 t2 h1 h2
    simp only [x11_compositor_handle_event, Outcome.ok.injEq, Prod.mk.injEq] at h1
    rw [h1.1, ← h1.2]
    simpa using h2
  | cons e rest ih =>
    intro c c1 c2 t1 t2 h1 h2
    simp only [List.cons_append, x11_compositor_handle_event] at h1 ⊢
    cases hd : dispatch_event c e with
    | exit status => simp [hd] at h1
    | fault g => simp [hd] at h1
    | ok r1 =>
      simp only [hd] at h1 ⊢
      cases hr : x11_compositor_handle_event r1.1 rest with
      | exit status => simp [hr] at h1
      | fault g => simp [hr] at h1
      | ok r2 =>
        simp only [hr, Outcome.ok.injEq, Prod.mk.injEq] at h1
        have hr2 : x11_compositor_handle_event r1.1 rest = .ok (c1, r2.2) := by
          rw [hr, ← h1.1]
        have hok := ih r1.1 c1 c2 r2.2 t2 hr2 h2
        simp only [List.append_eq] at hok ⊢
        rw [hok, ← h1.2, List.append_assoc]

/-- For coordinates below 2^15 the stored rectangle has the numbers of the
event. -/
theorem expose_rectangle_exact (x y width height : Nat) (hx : x < 32768) (hy : y < 32768) :
    expose_rectangle x y width height =
      { x := x, y := y, width := width, height := height } := by
  have h1 : to_int16 x = x := by unfold to_int16; omega
  have h2 : to_int16 y = y := by unfold to_int16; omega
  simp [expose_rectangle, h1, h2]

/-- An exposure of a window that no output has faults, whatever else is
queued behind it. -/
theorem handle_event_unknown_window (c : x11_compositor) (window x y width height : Nat)
    (rest : List xcb_generic_event_t)
    (h : x11_compositor_find_output c window = none) :
    x11_compositor_handle_event c (.expose window x y width height :: rest) =
      .fault .null_dereference := by
  simp [x11_compositor_handle_event, dispatch_event, handle_expose, h]

/-- Once the atoms are interned and the core initialises, backend creation
returns an instance whatever `x11_compositor_init_egl` and
`x11_compositor_create_output` return. -/
theorem create_returns_instance (h : host) (c1 : x11_compositor)
    (r : Int × x11_compositor × List Effect)
    (hm : h.malloc_compositor = true) (he : h.connection_has_error = false)
    (hres : x11_compositor_get_resources zero_compositor h = .ok c1)
    (hinit : 0 ≤ h.wlsc_compositor_init)
    (hout : x11_compositor_create_output (x11_compositor_init_egl c1 h).2 1024 640 h =
      .ok r) :
    ∃ c calls, x11_compositor_create h = .ok (some c, calls) := by
  have hn : ¬ h.wlsc_compositor_init < 0 := by omega
  simp [x11_compositor_create, hm, he, hres, hn, hout]

theorem ids_allocated_of_list_eq {c c1 : x11_compositor} (ha : ids_allocated c)
    (hl : c1.output_list = c.output_list) (hx : c.xid_last ≤ c1.xid_last) :
    ids_allocated c1 := by
  intro output hmem
  rw [hl] at hmem
  have := ha output hmem
  omega

theorem windows_distinct_of_list_eq {c c1 : x11_compositor} (hw : windows_distinct c)
    (hl : c1.output_list = c.output_list) : windows_distinct c1 := by
  unfold windows_distinct at hw ⊢
  rw [hl]
  exact hw

/-- Output creation keeps the window ids of the list pairwise different and
keeps every listed id at or below the last id handed out: the states the
backend builds satisfy both. -/
theorem create_output_keeps_ids (c : x11_compositor) (width height : Int) (h : host)
    (r : Int × x11_compositor × List Effect)
    (hw : windows_distinct c) (ha : ids_allocated c)
    (hout : x11_compositor_create_output c width height h = .ok r) :
    windows_distinct r.2.1 ∧ ids_allocated r.2.1 := by
  unfold x11_compositor_create_output at hout
  by_cases hm : h.malloc_output = true
  · simp only [hm, not_true_eq_false, if_false] at hout
    cases hrep : h.get_buffers_reply with
    | none =>
      simp only [hrep, Outcome.ok.injEq] at hout
      subst hout
      exact ⟨windows_distinct_of_list_eq hw rfl,
        ids_allocated_of_list_eq ha rfl (by simp only [xcb_generate_id]; omega)⟩
    | some reply =>
      cases hb : reply.buffers with
      | none =>
        simp only [hrep, hb, Outcome.ok.injEq] at hout
        subst hout
        exact ⟨windows_distinct_of_list_eq hw rfl,
          ids_allocated_of_list_eq ha rfl (by simp only [xcb_generate_id]; omega)⟩
      | some buffers =>
        by_cases hc : reply.count = 1
        · cases buffers with
          | nil => simp [hrep, hb, hc] at hout
          | cons buffer rest =>
            simp only [hrep, hb, hc, ne_eq, not_true_eq_false, if_false,
              Outcome.ok.injEq] at hout
            subst hout
            constructor
            · unfold windows_distinct at hw ⊢
              simp only [xcb_generate_id, List.map_append, List.map_cons, List.map_nil]
              rw [List.nodup_append]
              refine ⟨hw, List.nodup_singleton _, ?_⟩
              intro w hw1 hw2
              rw [List.mem_singleton] at hw2
              obtain ⟨output, hmem, rfl⟩ := List.mem_map.mp hw1
              have := ha output hmem
              omega
            · intro output hmem
              simp only [xcb_generate_id, List.mem_append, List.mem_singleton] at hmem ⊢
              rcases hmem with hmem | rfl
              · have := ha output hmem
                omega
              · simp
        · simp only [hrep, hb, hc, ne_eq, not_false_eq_true, if_true,
            Outcome.ok.injEq] at hout
          subst hout
          exact ⟨windows_distinct_of_list_eq hw rfl,
            ids_allocated_of_list_eq ha rfl (by simp only [xcb_generate_id]; omega)⟩
  · have hm1 : h.malloc_output = false := by simpa using hm
    simp only [hm1, Bool.false_eq_true, not_false_eq_true, if_true, Outcome.ok.injEq] at hout
    subst hout
    exact ⟨hw, ha⟩

/-- The idle task run on a listed output leaves that output, in the list, with
damage_count 0. -/
theorem run_idle_repaint_resets (c : x11_compositor) (i : Nat) (o : x11_output)
    (hg : c.output_list[i]? = some o) :
    ∃ c1 calls o1, run_idle_repaint c i = .ok (c1, calls) ∧
      c1.output_list[i]? = some o1 ∧ o1.damage_count = 0 := by
  have hi : i < c.output_list.length := (List.getElem?_eq_some.mp hg).1
  refine ⟨store_output { c with xid_last := (idle_repaint c o).1 } i (idle_repaint c o).2.1,
    (idle_repaint c o).2.2, (idle_repaint c o).2.1, ?_, ?_, rfl⟩
  · simp only [run_idle_repaint, hg]
  · simp [store_output, List.getElem?_set, hi]

/-! ## Scheduling of the idle repaint -/

/-- C1: for every output of the list (window ids pairwise different) whose
damage_count is 0, a non-empty sequence of fewer than 2^31 expose events for
that output's window, handled with no idle repaint in between, adds exactly
one idle_repaint task for that output: handling the first event adds it,
handling the remaining events adds nothing, and the whole sequence handled in
one call adds exactly that one task. -/
theorem C1_exactly_one_idle_repaint (c : x11_compositor) (i : Nat) (o : x11_output)
    (first : xcb_generic_event_t) (rest : List xcb_generic_event_t)
    (hg : c.output_list[i]? = some o)
    (hw : windows_distinct c)
    (hd : o.damage_count = 0)
    (hall : ∀ e ∈ first :: rest, is_expose_for o.window e)
    (hlen : (first :: rest).length < 2147483648) :
    ∃ c1 c2,
      x11_compositor_handle_event c [first] = .ok (c1, [Effect.add_idle_repaint i]) ∧
      x11_compositor_handle_event c1 rest = .ok (c2, []) ∧
      x11_compositor_handle_event c (first :: rest) = .ok (c2, [Effect.add_idle_repaint i]) := by
  have hf := find_output_listed hg hw
  have hlen1 : (rest.length : Int) + 1 < 2147483648 := by
    have : rest.length + 1 < 2147483648 := by simpa using hlen
    omega
  have hfirst : ∀ e ∈ [first], is_expose_for o.window e := fun e he => hall e (by
    simp at he; simp [he])
  have hrest : ∀ e ∈ rest, is_expose_for o.window e := fun e he => hall e (by simp [he])
  have h1 := handle_event_exposes o.window i [first] c o hf hg hfirst (by omega)
    (by simp [hd])
  have hf1 := (find_output_store hg
    (show (record_all o [first]).window = o.window from rfl) o.window).trans hf
  have hg1 : (store_output c i (record_all o [first])).output_list[i]? =
      some (record_all o [first]) := store_output_get hg
  have hc1 : (record_all o [first]).damage_count = 1 := by
    rw [record_all_count]; simp [hd]
  have h2 := handle_event_exposes o.window i rest _ _ hf1 hg1 hrest (by omega)
    (by rw [hc1]; omega)
  have h3 := handle_event_exposes o.window i (first :: rest) c o hf hg hall (by omega)
    (by simp [hd]; omega)
  refine ⟨store_output c i (record_all o [first]),
    store_output c i (record_all o (first :: rest)), ?_, ?_, ?_⟩
  · rw [h1]; simp [hd]
  · rw [h2, store_output_store]
    have hne : ¬ (rest ≠ [] ∧ (record_all o [first]).damage_count = 0) := by
      rw [hc1]; simp
    rw [if_neg hne]
    rfl
  · rw [h3]; simp [hd]

/-- Three exposures of window 9, the window of the second of two outputs, add
one idle repaint for that output. -/
theorem C1_exactly_one_idle_repaint_witness :
    ∃ c1 c2,
      x11_compositor_handle_event two_output_compositor [.expose 9 0 0 10 10] =
        .ok (c1, [Effect.add_idle_repaint 1]) ∧
      x11_compositor_handle_event c1 [.expose 9 20 30 5 6, .expose 9 1 2 3 4] = .ok (c2, []) ∧
      x11_compositor_handle_event two_output_compositor
        (.expose 9 0 0 10 10 :: [.expose 9 20 30 5 6, .expose 9 1 2 3 4]) =
        .ok (c2, [Effect.add_idle_repaint 1]) :=
  C1_exactly_one_idle_repaint two_output_compositor 1 second_output _ _
    rfl (by decide) rfl (by decide) (by decide)

/-! ## Repaint paths and the damage count -/

/-- C3 (as stated, refuted): after x11_compositor_present on a compositor whose
only output has damage_count 3, that output, which was repainted, still has
damage_count 3. -/
theorem C3_present_keeps_damage_count :
    (x11_compositor_present damaged_compositor 0 0).2 =
        [Effect.glFlush, Effect.copy_region 7 5 0 1, Effect.copy_region_reply,
         Effect.finish_frame 0] ∧
      (x11_compositor_present damaged_compositor 0 0).1.output_list.map
        (fun o => o.damage_count) = [3] := by
  decide

/-- C3 (amended): after idle_repaint of an output its damage_count is 0, for
every prior value of damage_count; x11_compositor_present leaves the
compositor, and so every output's damage_count, as it was. -/
theorem C3_idle_repaint_resets_damage_count (c : x11_compositor) (output : x11_output)
    (tv_sec tv_usec : Int) :
    (idle_repaint c output).2.1.damage_count = 0 ∧
      (x11_compositor_present c tv_sec tv_usec).1 = c := by
  exact ⟨rfl, rfl⟩

/-! ## Whole-scene present -/

theorem filter_copy_region_present (l : List x11_output) :
    (l.flatMap (fun output =>
      [Effect.copy_region output.window output.region
         XCB_DRI2_ATTACHMENT_BUFFER_FRONT_LEFT XCB_DRI2_ATTACHMENT_BUFFER_BACK_LEFT,
       Effect.copy_region_reply])).filter is_copy_region =
    l.map (fun output => Effect.copy_region output.window output.region
         XCB_DRI2_ATTACHMENT_BUFFER_FRONT_LEFT XCB_DRI2_ATTACHMENT_BUFFER_BACK_LEFT) := by
  induction l with
  | nil => rfl
  | cons o rest ih =>
    simp only [List.flatMap_cons, List.filter_append, ih, List.map_cons]
    simp [List.filter, is_copy_region]

/-- C4: for every output list and every damage state, the copy-region requests
that x11_compositor_present issues are, in list order, one per output, each on
that output's window and whole-window region with destination front-left and
source back-left; their number is the number of outputs, whatever the
damage_count of any output. -/
theorem C4_present_one_copy_per_output (c : x11_compositor) (tv_sec tv_usec : Int) :
    (x11_compositor_present c tv_sec tv_usec).2.filter is_copy_region =
        c.output_list.map (fun output =>
          Effect.copy_region output.window output.region
            XCB_DRI2_ATTACHMENT_BUFFER_FRONT_LEFT XCB_DRI2_ATTACHMENT_BUFFER_BACK_LEFT) ∧
      ((x11_compositor_present c tv_sec tv_usec).2.filter is_copy_region).length =
        c.output_list.length := by
  have h : (x11_compositor_present c tv_sec tv_usec).2.filter is_copy_region =
      c.output_list.map (fun output =>
        Effect.copy_region output.window output.region
          XCB_DRI2_ATTACHMENT_BUFFER_FRONT_LEFT XCB_DRI2_ATTACHMENT_BUFFER_BACK_LEFT) := by
    simp only [x11_compositor_present, List.filter_append, filter_copy_region_present]
    simp [List.filter, is_copy_region]
  exact ⟨h, by rw [h, List.length_map]⟩

/-! ## Output creation and backend creation -/

/-- C5: when the get-buffers reply carries a buffer count other than 1,
x11_compositor_create_output returns -1, makes no image-import call, and leaves
the output list of the compositor unchanged. -/
theorem C5_wrong_buffer_count_fails (c : x11_compositor) (width height : Int) (h : host)
    (reply : xcb_dri2_get_buffers_reply_t)
    (hr : h.get_buffers_reply = some reply) (hc : reply.count ≠ 1) :
    ∃ c1 calls,
      x11_compositor_create_output c width height h = .ok (-1, c1, calls) ∧
      calls.filter is_create_image = [] ∧
      c1.output_list = c.output_list := by
  unfold x11_compositor_create_output
  by_cases hm : h.malloc_output = true
  · cases hb : reply.buffers with
    | none =>
      simp only [hm, hr, hb, not_true_eq_false, if_false]
      exact ⟨_, _, rfl, rfl, rfl⟩
    | some buffers =>
      simp only [hm, hr, hb, hc, not_true_eq_false, not_false_eq_true, if_false, if_true,
        ne_eq]
      exact ⟨_, _, rfl, rfl, rfl⟩
  · simp only [hm, not_false_eq_true, if_true]
    exact ⟨_, _, rfl, rfl, rfl⟩

/-- Output creation on a host whose reply carries two buffers. -/
theorem C5_wrong_buffer_count_fails_witness :
    ∃ c1 calls,
      x11_compositor_create_output sample_compositor 1024 640 (sample_host 2) =
        .ok (-1, c1, calls) ∧
      calls.filter is_create_image = [] ∧
      c1.output_list = sample_compositor.output_list :=
  C5_wrong_buffer_count_fails sample_compositor 1024 640 (sample_host 2) (sample_reply 2)
    rfl (by decide)

/-- C6 (the code at the failing inputs): on a host whose get-buffers reply
carries two buffers, output creation returns -1 and x11_compositor_create
still returns a compositor, one with no output; on a host that gives no reply
to the XFixes version query, x11_compositor_init_egl returns -1 and
x11_compositor_create still returns a compositor. -/
theorem C6_create_returns_instance_after_failure :
    (∃ c1 calls, x11_compositor_create_output zero_compositor 1024 640 (sample_host 2) =
        .ok (-1, c1, calls)) ∧
      (∃ c calls, x11_compositor_create (sample_host 2) = .ok (some c, calls) ∧
        c.output_list = []) ∧
      (∃ c1, x11_compositor_init_egl zero_compositor no_xfixes_host = (-1, c1)) ∧
      (∃ c calls, x11_compositor_create no_xfixes_host = .ok (some c, calls)) := by
  refine ⟨⟨_, _, rfl⟩, ⟨_, _, rfl, rfl⟩, ⟨_, rfl⟩, ⟨_, _, rfl⟩⟩

/-! ## Event dispatch -/

/-- C7 (the code at the failing input): an expose event for window 8, which no
output of the list has, makes the handler dereference the null result of the
lookup. -/
theorem C7_unknown_window_null_dereference :
    x11_compositor_find_output sample_compositor 8 = none ∧
      x11_compositor_handle_event sample_compositor [.expose 8 0 0 1 1] =
        .fault .null_dereference := by
  decide

/-- C8: a client-message event makes the handler exit exactly when its first
payload word is the registered WM_DELETE_WINDOW atom; for every other payload
the handler returns with the compositor unchanged and no call made. -/
theorem C8_client_message (c : x11_compositor) (data32_0 : Nat) :
    ((∃ status, x11_compositor_handle_event c [.client_message data32_0] = .exit status) ↔
        data32_0 = c.atom.wm_delete_window) ∧
      (x11_compositor_handle_event c [.client_message data32_0] = .ok (c, []) ↔
        data32_0 ≠ c.atom.wm_delete_window) := by
  by_cases h : data32_0 = c.atom.wm_delete_window
  · simp [x11_compositor_handle_event, dispatch_event, h]
  · simp [x11_compositor_handle_event, dispatch_event, h]

/-- C9: a key event with raw keycode k, 8 <= k <= 255, is forwarded as exactly
one notify_key call with code k - 8 and state 1 for a press, 0 for a release;
the compositor is unchanged. -/
theorem C9_key_translation (c : x11_compositor) (k : Nat) (h8 : 8 ≤ k) (_h255 : k ≤ 255) :
    x11_compositor_handle_event c [.key_press k] =
        .ok (c, [Effect.notify_key ((k - 8 : Nat) : Int) 1]) ∧
      x11_compositor_handle_event c [.key_release k] =
        .ok (c, [Effect.notify_key ((k - 8 : Nat) : Int) 0]) := by
  have hk : ((k - 8 : Nat) : Int) = (k : Int) - 8 := by omega
  simp [x11_compositor_handle_event, dispatch_event, hk]

/-- Raw keycode 30 is forwarded as code 22. -/
theorem C9_key_translation_witness :
    x11_compositor_handle_event sample_compositor [.key_press 30] =
        .ok (sample_compositor, [Effect.notify_key 22 1]) ∧
      x11_compositor_handle_event sample_compositor [.key_release 30] =
        .ok (sample_compositor, [Effect.notify_key 22 0]) :=
  C9_key_translation sample_compositor 30 (by decide) (by decide)

/-- Raw keycode 8 is forwarded as code 0. -/
theorem key_8_maps_to_0 :
    x11_compositor_handle_event sample_compositor [.key_press 8] =
      .ok (sample_compositor, [Effect.notify_key 0 1]) := by
  decide

/-! ## Damage accumulation and the region of the idle repaint -/

/-- C2 (the code at the failing input): the sample compositor lists one
output, of window 7, with damage_count 0; a sequence of 2^31 expose events for
window 7 is a sequence of more than 16; its last event increments damage_count
past the largest int, the wrapped count passes the test against 16 and the
handler writes outside the damage array, so no idle repaint and no copy
request on the whole-window region follows. -/
theorem C2_exposure_flood_faults :
    sample_compositor.output_list[0]? = some sample_output ∧
      windows_distinct sample_compositor ∧
      sample_output.window = 7 ∧
      sample_output.damage_count = 0 ∧
      (∀ e ∈ exposure_flood, is_expose_for 7 e) ∧
      16 < exposure_flood.length ∧
      x11_compositor_handle_event sample_compositor exposure_flood =
        .fault .out_of_bounds := by
  refine ⟨rfl, by decide, rfl, rfl, ?_, ?_, ?_⟩
  · intro e he
    rcases List.mem_append.mp he with h | h
    · rw [List.eq_of_mem_replicate h]; rfl
    · rw [List.mem_singleton.mp h]; rfl
  · rw [exposure_flood_length]; decide
  · exact handle_event_flood 2147483647 rfl sample_compositor 7 0 sample_output rfl rfl rfl
      0 0 1 1

/-- Below 2^31 events the overflow path does what C2 says: for every listed
output starting with damage_count 0 and more than 16 expose events for its
window, idle_repaint issues its copy request on the output's own whole-window
region, creates no region and destroys none. -/
theorem whole_region_after_overflow (c : x11_compositor) (i : Nat)
    (o : x11_output) (events : List xcb_generic_event_t)
    (hg : c.output_list[i]? = some o)
    (hw : windows_distinct c)
    (hd : o.damage_count = 0)
    (hall : ∀ e ∈ events, is_expose_for o.window e)
    (h16 : 16 < events.length) (hlen : events.length < 2147483648) :
    ∃ c1 o1,
      x11_compositor_handle_event c events = .ok (c1, [Effect.add_idle_repaint i]) ∧
      c1.output_list[i]? = some o1 ∧
      o1.region = o.region ∧ o1.window = o.window ∧
      (idle_repaint c1 o1).2.2 =
        [Effect.copy_region o.window o.region
           XCB_DRI2_ATTACHMENT_BUFFER_FRONT_LEFT XCB_DRI2_ATTACHMENT_BUFFER_BACK_LEFT,
         Effect.copy_region_reply] := by
  have hf := find_output_listed hg hw
  have hrun := handle_event_exposes o.window i events c o hf hg hall (by omega)
    (by rw [hd]; omega)
  have hne : events ≠ [] := by
    intro h; rw [h] at h16; simp at h16
  have hcount : (record_all o events).damage_count = events.length := by
    rw [record_all_count, hd]; simp
  have hreg := record_all_region events o
  refine ⟨store_output c i (record_all o events), record_all o events, ?_,
    store_output_get hg, hreg.1, hreg.2, ?_⟩
  · rw [hrun]; simp [hne, hd]
  · have hbig : ¬ to_size_t (record_all o events).damage_count ≤ DAMAGE_ARRAY_SIZE := by
      rw [hcount]; unfold to_size_t DAMAGE_ARRAY_SIZE; omega
    simp [idle_repaint, hbig, hreg.1, hreg.2]

/-- Seventeen exposures of window 9 on the compositor with two outputs. -/
theorem whole_region_after_overflow_example :
    ∃ c1 o1,
      x11_compositor_handle_event two_output_compositor seventeen_second_exposures =
        .ok (c1, [Effect.add_idle_repaint 1]) ∧
      c1.output_list[1]? = some o1 ∧
      o1.region = second_output.region ∧ o1.window = second_output.window ∧
      (idle_repaint c1 o1).2.2 =
        [Effect.copy_region second_output.window second_output.region
           XCB_DRI2_ATTACHMENT_BUFFER_FRONT_LEFT XCB_DRI2_ATTACHMENT_BUFFER_BACK_LEFT,
         Effect.copy_region_reply] :=
  whole_region_after_overflow two_output_compositor 1 second_output
    seventeen_second_exposures rfl (by decide) rfl (by decide) (by decide) (by decide)

theorem event_rectangle_eq_fields (e : xcb_generic_event_t) (h : coordinates_fit e) :
    event_rectangle e = event_fields e := by
  cases e with
  | expose window x y width height =>
    simp only [coordinates_fit] at h
    exact expose_rectangle_exact x y width height h.1 h.2
  | _ => rfl

/-- C10 (as stated, refuted): one expose event for window 9 with x = 40000 is a
sequence of n = 1 events for the window of a listed output with damage_count
0; the first entry of the damage array is then (-25536, 3, 10, 10), not the
(40000, 3, 10, 10) of the event, and idle_repaint builds its region from the
stored entry. -/
theorem C10_wide_coordinate_stored_converted :
    two_output_compositor.output_list[1]? = some second_output ∧
      second_output.damage_count = 0 ∧
      is_expose_for second_output.window wide_exposure ∧
      event_fields wide_exposure = { x := 40000, y := 3, width := 10, height := 10 } ∧
      ∃ c1 o1,
        x11_compositor_handle_event two_output_compositor [wide_exposure] =
          .ok (c1, [Effect.add_idle_repaint 1]) ∧
        c1.output_list[1]? = some o1 ∧
        o1.damage_count = 1 ∧
        o1.damage.take 1 = [{ x := -25536, y := 3, width := 10, height := 10 }] ∧
        o1.damage.take 1 ≠ [event_fields wide_exposure] ∧
        (idle_repaint c1 o1).2.2 =
          [Effect.create_region 10 [{ x := -25536, y := 3, width := 10, height := 10 }],
           Effect.copy_region 9 10 0 1, Effect.destroy_region 10,
           Effect.copy_region_reply] := by
  refine ⟨rfl, rfl, by decide, rfl, ?_⟩
  refine ⟨store_output two_output_compositor 1
      (record_damage second_output (event_rectangle wide_exposure)),
    record_damage second_output (event_rectangle wide_exposure), ?_, ?_, ?_, ?_, ?_, ?_⟩ <;>
    decide

/-- C10 (amended): for every listed output (window ids pairwise different, its
region id handed out earlier by the connection) starting with damage_count 0
and n expose events for its window, 1 <= n <= 16, with x and y below 2^15,
handled before idle_repaint runs: damage_count is n, the first n entries of
the damage array are exactly the (x, y, width, height) of the events in
arrival order, and idle_repaint creates a region with a newly generated id,
distinct from the whole-window region, from exactly those n rectangles, issues
its copy request on it and destroys it afterwards. -/
theorem C10_precise_region (c : x11_compositor) (i : Nat)
    (o : x11_output) (events : List xcb_generic_event_t)
    (hg : c.output_list[i]? = some o)
    (hw : windows_distinct c)
    (hd : o.damage_count = 0) (harr : o.damage.length = 16)
    (hid : o.region ≤ c.xid_last)
    (hall : ∀ e ∈ events, is_expose_for o.window e)
    (hfit : ∀ e ∈ events, coordinates_fit e)
    (h1 : 1 ≤ events.length) (h16 : events.length ≤ 16) :
    ∃ c1 o1 region,
      x11_compositor_handle_event c events = .ok (c1, [Effect.add_idle_repaint i]) ∧
      c1.output_list[i]? = some o1 ∧
      o1.damage_count = events.length ∧
      o1.damage.take events.length = events.map event_fields ∧
      o1.region = o.region ∧ o1.window = o.window ∧
      region ≠ o.region ∧
      (idle_repaint c1 o1).2.2 =
        [Effect.create_region region (events.map event_fields),
         Effect.copy_region o.window region
           XCB_DRI2_ATTACHMENT_BUFFER_FRONT_LEFT XCB_DRI2_ATTACHMENT_BUFFER_BACK_LEFT,
         Effect.destroy_region region,
         Effect.copy_region_reply] := by
  have hf := find_output_listed hg hw
  have hrun := handle_event_exposes o.window i events c o hf hg hall (by omega)
    (by rw [hd]; omega)
  have hne : events ≠ [] := by
    intro h; rw [h] at h1; simp at h1
  have hcount : (record_all o events).damage_count = events.length := by
    rw [record_all_count, hd]; simp
  have hreg := record_all_region events o
  have hmap : events.map event_rectangle = events.map event_fields :=
    List.map_congr_left (fun e he => event_rectangle_eq_fields e (hfit e he))
  have htake : (record_all o events).damage.take events.length = events.map event_fields := by
    rw [record_all_take o events harr hd h16, hmap]
  have hfresh : c.xid_last + 1 ≠ o.region := by omega
  refine ⟨store_output c i (record_all o events), record_all o events, c.xid_last + 1, ?_,
    store_output_get hg, hcount, htake, hreg.1, hreg.2, hfresh, ?_⟩
  · rw [hrun]; simp [hne, hd]
  · have hsmall : to_size_t (record_all o events).damage_count ≤ DAMAGE_ARRAY_SIZE := by
      rw [hcount]; unfold to_size_t DAMAGE_ARRAY_SIZE; omega
    have hlen32 : to_uint32 (record_all o events).damage_count = events.length := by
      rw [hcount]; unfold to_uint32; omega
    simp [idle_repaint, hsmall, hlen32, htake, hreg.1, hreg.2, xcb_generate_id,
      store_output, hfresh]

/-- Three exposures of window 9 on the compositor with two outputs: the stored
rectangles and the created region carry the numbers of the events. -/
theorem C10_precise_region_witness :
    ∃ c1 o1 region,
      x11_compositor_handle_event two_output_compositor second_exposures =
        .ok (c1, [Effect.add_idle_repaint 1]) ∧
      c1.output_list[1]? = some o1 ∧
      o1.damage_count = ((second_exposures.length : Nat) : Int) ∧
      o1.damage.take second_exposures.length = second_exposures.map event_fields ∧
      o1.region = second_output.region ∧ o1.window = second_output.window ∧
      region ≠ second_output.region ∧
      (idle_repaint c1 o1).2.2 =
        [Effect.create_region region (second_exposures.map event_fields),
         Effect.copy_region second_output.window region
           XCB_DRI2_ATTACHMENT_BUFFER_FRONT_LEFT XCB_DRI2_ATTACHMENT_BUFFER_BACK_LEFT,
         Effect.destroy_region region,
         Effect.copy_region_reply] :=
  C10_precise_region two_output_compositor 1 second_output second_exposures
    rfl (by decide) rfl rfl (by decide) (by decide) (by decide) (by decide) (by decide)

end X11
